import Mathlib

/-!
Shallow embedding of `src/solar_energy_forecast/pvlib.py`, function
`get_relative_airmass(zenith, model='kastenyoung1989')`.

Numeric values are modelled by `Fl`: a finite real number, a signed
infinity, or the not-a-number sentinel, with IEEE-754-style propagation
through the arithmetic operations the source uses (`+`, `-`, `*`, `/`,
`**`, `np.cos`, `np.sin`, `np.radians`, `np.where`).  Division of a
nonzero finite value by zero yields a signed infinity (zero is treated
as `+0`), and a fractional power of a negative base yields NaN; every
fractional exponent appearing in the source is non-integer, so the
negative-base branch of `Fl.fpow` is exactly numpy's behaviour on the
source's power expressions.  Integer-literal exponents (`** 2`, `** 3`)
are modelled separately by `Fl.npow`.

The numpy code is vectorized; per the referential transparency of the
element operations, it is embedded here as a per-element function
(`amFormula`) mapped over scalar, unlabeled-sequence (numpy array) and
labeled-sequence (pandas Series) inputs.
-/

noncomputable section

/-- An IEEE-style double: NaN, a signed infinity (`true` = positive), or
a finite real value. -/
inductive Fl where
  | nan : Fl
  | inf : Bool → Fl
  | val : ℝ → Fl

namespace Fl

/-- IEEE addition. -/
def add : Fl → Fl → Fl
  | .nan, _ => .nan
  | _, .nan => .nan
  | .inf s, .inf t => if s == t then .inf s else .nan
  | .inf s, .val _ => .inf s
  | .val _, .inf t => .inf t
  | .val x, .val y => .val (x + y)

/-- IEEE subtraction. -/
def sub : Fl → Fl → Fl
  | .nan, _ => .nan
  | _, .nan => .nan
  | .inf s, .inf t => if s == t then .nan else .inf s
  | .inf s, .val _ => .inf s
  | .val _, .inf t => .inf (!t)
  | .val x, .val y => .val (x - y)

/-- IEEE multiplication. -/
def mul : Fl → Fl → Fl
  | .nan, _ => .nan
  | _, .nan => .nan
  | .inf s, .inf t => .inf (s == t)
  | .inf s, .val y => if y = 0 then .nan else if 0 < y then .inf s else .inf (!s)
  | .val x, .inf t => if x = 0 then .nan else if 0 < x then .inf t else .inf (!t)
  | .val x, .val y => .val (x * y)

/-- IEEE division; a finite zero is treated as `+0`, so a positive
finite value divided by zero is `+∞`. -/
def div : Fl → Fl → Fl
  | .nan, _ => .nan
  | _, .nan => .nan
  | .inf _, .inf _ => .nan
  | .inf s, .val y => if y = 0 then .inf s else if 0 < y then .inf s else .inf (!s)
  | .val _, .inf _ => .val 0
  | .val x, .val y =>
      if y = 0 then (if x = 0 then .nan else if 0 < x then .inf true else .inf false)
      else .val (x / y)

/-- `np.cos`; NaN on NaN and on infinities. -/
def cos : Fl → Fl
  | .val x => .val (Real.cos x)
  | _ => .nan

/-- `np.sin`; NaN on NaN and on infinities. -/
def sin : Fl → Fl
  | .val x => .val (Real.sin x)
  | _ => .nan

/-- `np.radians`: multiplication by `π / 180`. -/
def radians : Fl → Fl
  | .nan => .nan
  | .inf s => .inf s
  | .val x => .val (x * (Real.pi / 180))

/-- `**` with a real (non-integer) literal exponent, IEEE `pow`:
NaN base gives NaN, a negative base with the (non-integer) exponent
gives NaN, `0 ** p` is `+∞`, `1`, or `0` as `p` is negative, zero or
positive, and a positive base uses the real power `Real.rpow`. -/
def fpow : Fl → ℝ → Fl
  | .nan, _ => .nan
  | .inf s, p =>
      if p = 0 then .val 1
      else if s then (if 0 < p then .inf true else .val 0)
      else .nan
  | .val x, p =>
      if x < 0 then .nan
      else if x = 0 then (if p < 0 then .inf true else if p = 0 then .val 1 else .val 0)
      else .val (x ^ p)

/-- `**` with an integer literal exponent. -/
def npow : Fl → ℕ → Fl
  | .nan, _ => .nan
  | .inf s, n => if n = 0 then .val 1 else .inf (s || n % 2 == 0)
  | .val x, n => .val (x ^ n)

end Fl

/-- `np.where(zenith > 90, np.nan, zenith)`: the horizon mask.  A NaN
comparison is false, so NaN elements pass through (as NaN); `+∞ > 90`
holds, so `+∞` is masked. -/
def maskZ : Fl → Fl
  | .nan => .nan
  | .inf s => if s then .nan else .inf false
  | .val x => if 90 < x then .nan else .val x

/-- The eight recognized airmass models. -/
inductive AirmassModel where
  | kastenyoung1989 | kasten1966 | simple | pickering2002
  | youngirvine1967 | young1994 | gueymard1993 | gueymard2003
deriving DecidableEq

/-- Python's `str.lower()` (`model = model.lower()` in the source):
per-character lowercasing. -/
def strLower (s : String) : String := String.mk (s.data.map Char.toLower)

/-- The `if/elif` chain of the source: match the (already lowercased)
model string against the eight recognized names, in source order. -/
def parseModel (model : String) : Option AirmassModel :=
  if model = "kastenyoung1989" then some .kastenyoung1989
  else if model = "kasten1966" then some .kasten1966
  else if model = "simple" then some .simple
  else if model = "pickering2002" then some .pickering2002
  else if model = "youngirvine1967" then some .youngirvine1967
  else if model = "young1994" then some .young1994
  else if model = "gueymard1993" then some .gueymard1993
  else if model = "gueymard2003" then some .gueymard2003
  else none

/-- Canonical (lowercase) name of each model. -/
def modelName : AirmassModel → String
  | .kastenyoung1989 => "kastenyoung1989"
  | .kasten1966 => "kasten1966"
  | .simple => "simple"
  | .pickering2002 => "pickering2002"
  | .youngirvine1967 => "youngirvine1967"
  | .young1994 => "young1994"
  | .gueymard1993 => "gueymard1993"
  | .gueymard2003 => "gueymard2003"

/-- The list of the eight recognized model name strings. -/
def validModels : List String :=
  ["kastenyoung1989", "kasten1966", "simple", "pickering2002",
   "youngirvine1967", "young1994", "gueymard1993", "gueymard2003"]

/-- The per-element formula of each model branch, applied to the already
masked element `z` (the source's `z`); `zenith_rad` is `np.radians(z)`.
Transcribed from the `am = ...` expressions of the source. -/
def amFormula (m : AirmassModel) (z : Fl) : Fl :=
  let zenith_rad := z.radians
  match m with
  | .kastenyoung1989 =>
      Fl.div (.val 1) (Fl.add (Fl.cos zenith_rad)
        (Fl.mul (.val 0.50572)
          (Fl.fpow (Fl.add (.val 6.07995) (Fl.sub (.val 90) z)) (-1.6364))))
  | .kasten1966 =>
      Fl.div (.val 1) (Fl.add (Fl.cos zenith_rad)
        (Fl.mul (.val 0.15) (Fl.fpow (Fl.sub (.val 93.885) z) (-1.253))))
  | .simple =>
      Fl.div (.val 1) (Fl.cos zenith_rad)
  | .pickering2002 =>
      Fl.div (.val 1) (Fl.sin (Fl.radians
        (Fl.add (Fl.sub (.val 90) z)
          (Fl.div (.val 244)
            (Fl.add (.val 165) (Fl.mul (.val 47) (Fl.fpow (Fl.sub (.val 90) z) 1.1)))))))
  | .youngirvine1967 =>
      let sec_zen := Fl.div (.val 1) (Fl.cos zenith_rad)
      Fl.mul sec_zen (Fl.sub (.val 1)
        (Fl.mul (.val 0.0012) (Fl.sub (Fl.mul sec_zen sec_zen) (.val 1))))
  | .young1994 =>
      Fl.div
        (Fl.add (Fl.add (Fl.mul (.val 1.002432) (Fl.npow (Fl.cos zenith_rad) 2))
          (Fl.mul (.val 0.148386) (Fl.cos zenith_rad))) (.val 0.0096467))
        (Fl.add (Fl.add (Fl.add (Fl.npow (Fl.cos zenith_rad) 3)
          (Fl.mul (.val 0.149864) (Fl.npow (Fl.cos zenith_rad) 2)))
          (Fl.mul (.val 0.0102963) (Fl.cos zenith_rad))) (.val 0.000303978))
  | .gueymard1993 =>
      Fl.div (.val 1) (Fl.add (Fl.cos zenith_rad)
        (Fl.mul (Fl.mul (.val 0.00176759) z)
          (Fl.fpow (Fl.sub (.val 94.37515) z) (-1.21563))))
  | .gueymard2003 =>
      Fl.div (.val 1) (Fl.add (Fl.cos zenith_rad)
        (Fl.div (Fl.mul (.val 0.48353) (Fl.fpow z 0.095846))
          (Fl.fpow (Fl.sub (.val 96.741) z) 1.754)))

/-- The per-element computation of `get_relative_airmass`: mask the
horizon, then apply the selected model's formula. -/
def amElem (m : AirmassModel) (zenith : Fl) : Fl :=
  amFormula m (maskZ zenith)

/-- Input shapes accepted by the source: a scalar, a numpy array
(unlabeled ordered sequence), or a pandas Series (labeled sequence,
kept as label/value pairs in order). -/
inductive ZenithInput where
  | scalar : Fl → ZenithInput
  | array : List Fl → ZenithInput
  | series : List (String × Fl) → ZenithInput

/-- Output shapes, mirroring `ZenithInput`. -/
inductive AirmassOutput where
  | scalar : Fl → AirmassOutput
  | array : List Fl → AirmassOutput
  | series : List (String × Fl) → AirmassOutput

/-- `get_relative_airmass(zenith, model='kastenyoung1989')`.  The model
string is lowercased; an unrecognized name raises
`ValueError('%s is not a valid model for relativeairmass', model)`,
embedded as an `Except.error` carrying the format string and the
(lowercased) model string.  Otherwise the selected formula is applied
element-wise, and a Series input is rebuilt with its original index. -/
def get_relative_airmass (zenith : ZenithInput)
    (model : String := "kastenyoung1989") : Except (String × String) AirmassOutput :=
  match parseModel (strLower model) with
  | none => .error ("%s is not a valid model for relativeairmass", strLower model)
  | some md =>
    match zenith with
    | .scalar z => .ok (.scalar (amElem md z))
    | .array zs => .ok (.array (zs.map (amElem md)))
    | .series ps => .ok (.series (ps.map fun p => (p.1, amElem md p.2)))

/-- The spec's formula table, transcribed from the spec's words (§4.1,
"Formula dispatch — `am` as a function of `z` (degrees) and/or
`zenith_rad` (radians)"), for comparison with the source's branches.
`z` is the masked zenith of the spec's preprocessing step 1 and
`zenith_rad` its step-2 conversion to radians. -/
def specFormula (m : AirmassModel) (z : Fl) : Fl :=
  let zenith_rad := z.radians
  match m with
  | .simple =>
      -- `1 / cos(zenith_rad)`
      Fl.div (.val 1) (Fl.cos zenith_rad)
  | .kasten1966 =>
      -- `1 / (cos(zenith_rad) + 0.15·(93.885 − z)^−1.253)`
      Fl.div (.val 1) (Fl.add (Fl.cos zenith_rad)
        (Fl.mul (.val 0.15) (Fl.fpow (Fl.sub (.val 93.885) z) (-1.253))))
  | .youngirvine1967 =>
      -- `sec = 1/cos(zenith_rad); sec·(1 − 0.0012·(sec² − 1))`
      let sec := Fl.div (.val 1) (Fl.cos zenith_rad)
      Fl.mul sec (Fl.sub (.val 1) (Fl.mul (.val 0.0012) (Fl.sub (Fl.npow sec 2) (.val 1))))
  | .kastenyoung1989 =>
      -- `1 / (cos(zenith_rad) + 0.50572·(6.07995 + (90 − z))^−1.6364)`
      Fl.div (.val 1) (Fl.add (Fl.cos zenith_rad)
        (Fl.mul (.val 0.50572)
          (Fl.fpow (Fl.add (.val 6.07995) (Fl.sub (.val 90) z)) (-1.6364))))
  | .gueymard1993 =>
      -- `1 / (cos(zenith_rad) + 0.00176759·z·(94.37515 − z)^−1.21563)`
      Fl.div (.val 1) (Fl.add (Fl.cos zenith_rad)
        (Fl.mul (Fl.mul (.val 0.00176759) z)
          (Fl.fpow (Fl.sub (.val 94.37515) z) (-1.21563))))
  | .young1994 =>
      -- `(1.002432·cos²(zenith_rad) + 0.148386·cos(zenith_rad) + 0.0096467) /
      --  (cos³(zenith_rad) + 0.149864·cos²(zenith_rad) + 0.0102963·cos(zenith_rad)
      --   + 0.000303978)`
      Fl.div
        (Fl.add (Fl.add (Fl.mul (.val 1.002432) (Fl.npow (Fl.cos zenith_rad) 2))
          (Fl.mul (.val 0.148386) (Fl.cos zenith_rad))) (.val 0.0096467))
        (Fl.add (Fl.add (Fl.add (Fl.npow (Fl.cos zenith_rad) 3)
          (Fl.mul (.val 0.149864) (Fl.npow (Fl.cos zenith_rad) 2)))
          (Fl.mul (.val 0.0102963) (Fl.cos zenith_rad))) (.val 0.000303978))
  | .pickering2002 =>
      -- `1 / sin(radians(90 − z + 244/(165 + 47·(90 − z)^1.1)))`
      Fl.div (.val 1) (Fl.sin (Fl.radians
        (Fl.add (Fl.sub (.val 90) z)
          (Fl.div (.val 244)
            (Fl.add (.val 165) (Fl.mul (.val 47) (Fl.fpow (Fl.sub (.val 90) z) 1.1)))))))
  | .gueymard2003 =>
      -- `1 / (cos(zenith_rad) + 0.48353·z^0.095846 / (96.741 − z)^1.754)`
      Fl.div (.val 1) (Fl.add (Fl.cos zenith_rad)
        (Fl.div (Fl.mul (.val 0.48353) (Fl.fpow z 0.095846))
          (Fl.fpow (Fl.sub (.val 96.741) z) 1.754)))

/-! ### Basic lemmas about the embedding -/

theorem Fl.npow_two_eq_mul (a : Fl) : Fl.npow a 2 = a.mul a := by
  cases a <;> simp [Fl.npow, Fl.mul, sq]

theorem maskZ_val_of_le {z : ℝ} (h : z ≤ 90) : maskZ (.val z) = .val z := by
  simp [maskZ, not_lt.mpr h]

theorem maskZ_val_of_gt {z : ℝ} (h : 90 < z) : maskZ (.val z) = .nan := by
  simp [maskZ, h]

theorem parseModel_modelName (m : AirmassModel) : parseModel (modelName m) = some m := by
  cases m <;> rfl

theorem strLower_modelName (m : AirmassModel) : strLower (modelName m) = modelName m := by
  cases m <;> rfl

theorem parseModel_eq_none_iff (s : String) :
    parseModel s = none ↔ s ∉ validModels := by
  unfold parseModel validModels
  split_ifs <;> simp_all

theorem get_relative_airmass_scalar_eq {model : String} {md : AirmassModel}
    (h : parseModel (strLower model) = some md) (z : Fl) :
    get_relative_airmass (.scalar z) model = .ok (.scalar (amElem md z)) := by
  unfold get_relative_airmass
  rw [h]

theorem get_relative_airmass_name_scalar (m : AirmassModel) (z : Fl) :
    get_relative_airmass (.scalar z) (modelName m) = .ok (.scalar (amElem m z)) :=
  get_relative_airmass_scalar_eq (by rw [strLower_modelName, parseModel_modelName]) z

/-- Every formula maps a NaN masked element to NaN. -/
theorem amFormula_nan (m : AirmassModel) : amFormula m .nan = .nan := by
  cases m <;> rfl

/-! ### The kastenyoung1989 branch as a real function -/

/-- The `kastenyoung1989` denominator, read off the source's branch, as
a function of the (unmasked, finite) zenith `z` in degrees:
`cos(radians(z)) + 0.50572*((6.07995 + (90 - z)) ** -1.6364)`. -/
def kyDenom (z : ℝ) : ℝ :=
  Real.cos (z * (Real.pi / 180)) + 0.50572 * (6.07995 + (90 - z)) ^ (-1.6364 : ℝ)

/-- The `kastenyoung1989` airmass as a real function of zenith (degrees). -/
def kyAm (z : ℝ) : ℝ := 1 / kyDenom z

theorem kyDenom_pos {z : ℝ} (h0 : 0 ≤ z) (h90 : z ≤ 90) : 0 < kyDenom z := by
  have hb : (0 : ℝ) < 6.07995 + (90 - z) := by linarith
  have h1 : 0 ≤ z * (Real.pi / 180) := mul_nonneg h0 (by positivity)
  have h2 : z * (Real.pi / 180) ≤ Real.pi / 2 := by
    nlinarith [mul_nonneg (sub_nonneg.mpr h90) Real.pi_pos.le]
  have hcos : 0 ≤ Real.cos (z * (Real.pi / 180)) :=
    Real.cos_nonneg_of_mem_Icc ⟨by linarith [Real.pi_pos], h2⟩
  have hc : (0 : ℝ) < 0.50572 * (6.07995 + (90 - z)) ^ (-1.6364 : ℝ) :=
    mul_pos (by norm_num) (Real.rpow_pos_of_pos hb _)
  unfold kyDenom
  linarith

theorem amFormula_ky_val {z : ℝ} (h90 : z ≤ 90) (hd : kyDenom z ≠ 0) :
    amFormula .kastenyoung1989 (.val z) = .val (kyAm z) := by
  have hb : (0 : ℝ) < 6.07995 + (90 - z) := by linarith
  have hd' : Real.cos (z * (Real.pi / 180)) +
      0.50572 * (6.07995 + (90 - z)) ^ (-1.6364 : ℝ) ≠ 0 := hd
  simp [amFormula, kyAm, kyDenom, Fl.radians, Fl.cos, Fl.sub, Fl.add, Fl.mul,
    Fl.fpow, Fl.div, not_lt.mpr hb.le, hb.ne', hd']

theorem ky_eval {z : ℝ} (h0 : 0 ≤ z) (h90 : z ≤ 90) :
    get_relative_airmass (.scalar (.val z)) "kastenyoung1989" =
      .ok (.scalar (.val (kyAm z))) := by
  rw [show "kastenyoung1989" = modelName .kastenyoung1989 from rfl,
    get_relative_airmass_name_scalar, amElem, maskZ_val_of_le h90,
    amFormula_ky_val h90 (ne_of_gt (kyDenom_pos h0 h90))]

/-! ### Pointwise evaluation of the other model branches -/

theorem amFormula_kasten1966_val {z : ℝ} (h90 : z ≤ 90)
    (hd : Real.cos (z * (Real.pi / 180)) +
      0.15 * (93.885 - z) ^ (-1.253 : ℝ) ≠ 0) :
    amFormula .kasten1966 (.val z) =
      .val (1 / (Real.cos (z * (Real.pi / 180)) +
        0.15 * (93.885 - z) ^ (-1.253 : ℝ))) := by
  have hb : (0 : ℝ) < 93.885 - z := by linarith
  simp [amFormula, Fl.radians, Fl.cos, Fl.sub, Fl.add, Fl.mul, Fl.fpow, Fl.div,
    not_lt.mpr hb.le, hb.ne', hd]

theorem amFormula_simple_val {z : ℝ} (hc : Real.cos (z * (Real.pi / 180)) ≠ 0) :
    amFormula .simple (.val z) = .val (1 / Real.cos (z * (Real.pi / 180))) := by
  simp [amFormula, Fl.radians, Fl.cos, Fl.div, hc]

theorem amFormula_youngirvine_val {z : ℝ} (hc : Real.cos (z * (Real.pi / 180)) ≠ 0) :
    amFormula .youngirvine1967 (.val z) =
      .val ((1 / Real.cos (z * (Real.pi / 180))) *
        (1 - 0.0012 * ((1 / Real.cos (z * (Real.pi / 180))) *
          (1 / Real.cos (z * (Real.pi / 180))) - 1))) := by
  simp [amFormula, Fl.radians, Fl.cos, Fl.sub, Fl.mul, Fl.div, hc]

theorem amFormula_young1994_val {z : ℝ}
    (hd : Real.cos (z * (Real.pi / 180)) ^ 3 +
      0.149864 * Real.cos (z * (Real.pi / 180)) ^ 2 +
      0.0102963 * Real.cos (z * (Real.pi / 180)) + 0.000303978 ≠ 0) :
    amFormula .young1994 (.val z) =
      .val ((1.002432 * Real.cos (z * (Real.pi / 180)) ^ 2 +
        0.148386 * Real.cos (z * (Real.pi / 180)) + 0.0096467) /
        (Real.cos (z * (Real.pi / 180)) ^ 3 +
          0.149864 * Real.cos (z * (Real.pi / 180)) ^ 2 +
          0.0102963 * Real.cos (z * (Real.pi / 180)) + 0.000303978)) := by
  have hd' : Real.cos (z * (Real.pi / 180)) ^ 3 +
      0.149864 * Real.cos (z * (Real.pi / 180)) ^ 2 +
      0.0102963 * Real.cos (z * (Real.pi / 180)) + 0.000303978 ≠ 0 := hd
  simp only [amFormula, Fl.radians, Fl.cos, Fl.npow, Fl.add, Fl.mul, Fl.div]
  rw [if_neg (by rw [add_assoc, add_assoc] at hd'; rw [add_assoc, add_assoc]; exact hd')]

theorem amFormula_gueymard1993_val {z : ℝ} (h90 : z ≤ 90)
    (hd : Real.cos (z * (Real.pi / 180)) +
      0.00176759 * z * (94.37515 - z) ^ (-1.21563 : ℝ) ≠ 0) :
    amFormula .gueymard1993 (.val z) =
      .val (1 / (Real.cos (z * (Real.pi / 180)) +
        0.00176759 * z * (94.37515 - z) ^ (-1.21563 : ℝ))) := by
  have hb : (0 : ℝ) < 94.37515 - z := by linarith
  simp [amFormula, Fl.radians, Fl.cos, Fl.sub, Fl.add, Fl.mul, Fl.fpow, Fl.div,
    not_lt.mpr hb.le, hb.ne', hd]

theorem amFormula_pickering_val {z : ℝ} (h90 : z < 90)
    (hs : Real.sin ((90 - z + 244 / (165 + 47 * (90 - z) ^ (1.1 : ℝ))) *
      (Real.pi / 180)) ≠ 0) :
    amFormula .pickering2002 (.val z) =
      .val (1 / Real.sin ((90 - z + 244 / (165 + 47 * (90 - z) ^ (1.1 : ℝ))) *
        (Real.pi / 180))) := by
  have hb : (0 : ℝ) < 90 - z := by linarith
  have hD : (0 : ℝ) < 165 + 47 * (90 - z) ^ (1.1 : ℝ) := by
    have := Real.rpow_nonneg hb.le (1.1 : ℝ)
    nlinarith
  simp [amFormula, Fl.radians, Fl.cos, Fl.sin, Fl.sub, Fl.add, Fl.mul, Fl.fpow,
    Fl.div, not_lt.mpr hb.le, hb.ne', hD.ne', hs]

/-- The `gueymard2003` branch evaluates `z ** 0.095846` on a negative
base, which is NaN, and the NaN propagates to the result. -/
theorem amFormula_gueymard2003_neg {z : ℝ} (hz : z < 0) :
    amFormula .gueymard2003 (.val z) = .nan := by
  have hb : (0 : ℝ) < 96.741 - z := by linarith
  simp [amFormula, Fl.radians, Fl.cos, Fl.sub, Fl.add, Fl.mul, Fl.fpow, Fl.div,
    not_lt.mpr hb.le, hb.ne', hz]

/-! ### Monotonicity analysis of the kastenyoung1989 branch -/

/-- Antitonicity of `x ↦ x^(−q)` in the base, for `q ≥ 0`. -/
theorem rpow_neg_anti {c B q : ℝ} (hc : 0 < c) (hcB : c ≤ B) (hq : 0 ≤ q) :
    B ^ (-q) ≤ c ^ (-q) := by
  have hB : 0 < B := lt_of_lt_of_le hc hcB
  rw [Real.rpow_neg hc.le, Real.rpow_neg hB.le]
  exact inv_anti₀ (Real.rpow_pos_of_pos hc q) (Real.rpow_le_rpow hc.le hcB hq)

/-- `c^(5/2) = c²·√c` for positive `c`. -/
theorem rpow_five_halves_eq {c : ℝ} (hc : 0 < c) :
    c ^ ((5 : ℝ) / 2) = c ^ (2 : ℕ) * Real.sqrt c := by
  rw [show (5 : ℝ) / 2 = ((2 : ℕ) : ℝ) + 1 / 2 by norm_num, Real.rpow_add hc,
    Real.rpow_natCast, Real.sqrt_eq_rpow]

/-- `sin(1°) ≥ 0.01745`. -/
theorem sin_one_deg_lb : (0.01745 : ℝ) ≤ Real.sin (Real.pi / 180) := by
  have hπ0 := Real.pi_pos
  have hπd6 : (3.141592 : ℝ) < Real.pi := Real.pi_gt_d6
  have hπ2 : Real.pi < 3.15 := Real.pi_lt_d2
  have h : Real.pi / 180 - (Real.pi / 180) ^ 3 / 4 < Real.sin (Real.pi / 180) :=
    Real.sin_gt_sub_cube (by positivity) (by nlinarith)
  have hcube : (Real.pi / 180) ^ 3 ≤ (0.0175 : ℝ) ^ 3 :=
    pow_le_pow_left₀ (by positivity) (by nlinarith) 3
  nlinarith

/-- `sin(60°) = √3/2 ≥ 0.866`. -/
theorem sin_sixty_deg_lb : (0.866 : ℝ) ≤ Real.sin (Real.pi / 3) := by
  rw [Real.sin_pi_div_three]
  have h3 : (1.732 : ℝ) ≤ Real.sqrt 3 :=
    (Real.le_sqrt (by norm_num) (by norm_num)).mpr (by norm_num)
  linarith

/-- The derivative of `kyDenom`: the cosine contributes
`−sin(radians z)·(π/180)` and the correction term contributes
`+0.50572·1.6364·(6.07995 + (90 − z))^(−2.6364)`. -/
def kyDenomDeriv (z : ℝ) : ℝ :=
  -Real.sin (z * (Real.pi / 180)) * (Real.pi / 180) +
    0.50572 * (1.6364 * (6.07995 + (90 - z)) ^ (-2.6364 : ℝ))

theorem kyDenom_hasDerivAt {z : ℝ} (hz : z < 96.07995) :
    HasDerivAt kyDenom (kyDenomDeriv z) z := by
  have hb : (6.07995 + (90 - z) : ℝ) ≠ 0 := by linarith
  have h1 : HasDerivAt (fun z : ℝ => z * (Real.pi / 180)) (Real.pi / 180) z :=
    hasDerivAt_mul_const _
  have h2 : HasDerivAt (fun z : ℝ => Real.cos (z * (Real.pi / 180)))
      (-Real.sin (z * (Real.pi / 180)) * (Real.pi / 180)) z := h1.cos
  have h3 : HasDerivAt (fun z : ℝ => 6.07995 + (90 - z)) (-1) z := by
    simpa using ((hasDerivAt_id z).const_sub (90 : ℝ)).const_add (6.07995 : ℝ)
  have h4 : HasDerivAt (fun z : ℝ => (6.07995 + (90 - z)) ^ (-1.6364 : ℝ))
      ((-1) * (-1.6364) * (6.07995 + (90 - z)) ^ ((-1.6364 : ℝ) - 1)) z :=
    h3.rpow_const (Or.inl hb)
  have h5 : HasDerivAt
      (fun z : ℝ => 0.50572 * (6.07995 + (90 - z)) ^ (-1.6364 : ℝ))
      (0.50572 * ((-1) * (-1.6364) * (6.07995 + (90 - z)) ^ ((-1.6364 : ℝ) - 1))) z :=
    h4.const_mul (0.50572 : ℝ)
  have h6 := h2.add h5
  have he : -Real.sin (z * (Real.pi / 180)) * (Real.pi / 180) +
      0.50572 * ((-1) * (-1.6364) * (6.07995 + (90 - z)) ^ ((-1.6364 : ℝ) - 1)) =
      kyDenomDeriv z := by
    unfold kyDenomDeriv
    norm_num
  rw [he] at h6
  exact h6

set_option maxHeartbeats 1000000 in
/-- The derivative of `kyDenom` is strictly negative on `(1, 90)`:
past one degree of zenith, the sine term dominates the (positive)
derivative of the correction term. -/
theorem kyDenomDeriv_neg {z : ℝ} (h1 : 1 ≤ z) (h90 : z < 90) : kyDenomDeriv z < 0 := by
  have hπ0 := Real.pi_pos
  have hπd6 : (3.141592 : ℝ) < Real.pi := Real.pi_gt_d6
  have hπ2 : Real.pi < 3.15 := Real.pi_lt_d2
  have hmem : z * (Real.pi / 180) ∈ Set.Icc (-(Real.pi / 2)) (Real.pi / 2) := by
    constructor
    · nlinarith [mul_nonneg (by linarith : (0 : ℝ) ≤ z) hπ0.le]
    · nlinarith [mul_nonneg (by linarith : (0 : ℝ) ≤ 90 - z) hπ0.le]
  unfold kyDenomDeriv
  rcases le_or_lt z 60 with hz60 | hz60
  · -- zenith between 1 and 60 degrees: the base is at least 36.07995
    have hB : (36.07995 : ℝ) ≤ 6.07995 + (90 - z) := by linarith
    have hB1 : (1 : ℝ) ≤ 6.07995 + (90 - z) := by linarith
    have hexp : (6.07995 + (90 - z) : ℝ) ^ (-2.6364 : ℝ) ≤
        (6.07995 + (90 - z) : ℝ) ^ (-((5 : ℝ) / 2)) :=
      Real.rpow_le_rpow_of_exponent_le hB1 (by norm_num)
    have hanti : (6.07995 + (90 - z) : ℝ) ^ (-((5 : ℝ) / 2)) ≤
        (36.07995 : ℝ) ^ (-((5 : ℝ) / 2)) :=
      rpow_neg_anti (by norm_num) hB (by norm_num)
    have h25 : (36.07995 : ℝ) ^ ((5 : ℝ) / 2) = 1301.7627920025 * Real.sqrt 36.07995 := by
      rw [rpow_five_halves_eq (by norm_num)]
      norm_num
    have hsq : (6 : ℝ) ≤ Real.sqrt 36.07995 :=
      (Real.le_sqrt (by norm_num) (by norm_num)).mpr (by norm_num)
    have h36pos : (0 : ℝ) < (36.07995 : ℝ) ^ ((5 : ℝ) / 2) :=
      Real.rpow_pos_of_pos (by norm_num) _
    have hub : (36.07995 : ℝ) ^ (-((5 : ℝ) / 2)) ≤ 1 / 7810 := by
      rw [Real.rpow_neg (by norm_num), inv_eq_one_div, div_le_div_iff₀ h36pos (by norm_num)]
      nlinarith
    have hchain : (6.07995 + (90 - z) : ℝ) ^ (-2.6364 : ℝ) ≤ 1 / 7810 :=
      le_trans (le_trans hexp hanti) hub
    have hmem2 : Real.pi / 180 ∈ Set.Icc (-(Real.pi / 2)) (Real.pi / 2) := by
      constructor <;> nlinarith
    have hle : Real.pi / 180 ≤ z * (Real.pi / 180) := by
      nlinarith [mul_nonneg (by linarith : (0 : ℝ) ≤ z - 1) hπ0.le]
    have hsin : (0.01745 : ℝ) ≤ Real.sin (z * (Real.pi / 180)) := by
      have hmono := Real.strictMonoOn_sin.monotoneOn hmem2 hmem hle
      linarith [sin_one_deg_lb]
    have hprod : 0.01745 * (Real.pi / 180) ≤
        Real.sin (z * (Real.pi / 180)) * (Real.pi / 180) :=
      mul_le_mul_of_nonneg_right hsin (by positivity)
    nlinarith
  · -- zenith between 60 and 90 degrees: the sine is at least sin 60°
    have hB : (6.07995 : ℝ) ≤ 6.07995 + (90 - z) := by linarith
    have hB1 : (1 : ℝ) ≤ 6.07995 + (90 - z) := by linarith
    have hexp : (6.07995 + (90 - z) : ℝ) ^ (-2.6364 : ℝ) ≤
        (6.07995 + (90 - z) : ℝ) ^ (-((5 : ℝ) / 2)) :=
      Real.rpow_le_rpow_of_exponent_le hB1 (by norm_num)
    have hanti : (6.07995 + (90 - z) : ℝ) ^ (-((5 : ℝ) / 2)) ≤
        (6.07995 : ℝ) ^ (-((5 : ℝ) / 2)) :=
      rpow_neg_anti (by norm_num) hB (by norm_num)
    have h25 : (6.07995 : ℝ) ^ ((5 : ℝ) / 2) = 36.9657920025 * Real.sqrt 6.07995 := by
      rw [rpow_five_halves_eq (by norm_num)]
      norm_num
    have hsq : (2.46 : ℝ) ≤ Real.sqrt 6.07995 :=
      (Real.le_sqrt (by norm_num) (by norm_num)).mpr (by norm_num)
    have h6pos : (0 : ℝ) < (6.07995 : ℝ) ^ ((5 : ℝ) / 2) :=
      Real.rpow_pos_of_pos (by norm_num) _
    have hub : (6.07995 : ℝ) ^ (-((5 : ℝ) / 2)) ≤ 1 / 90 := by
      rw [Real.rpow_neg (by norm_num), inv_eq_one_div, div_le_div_iff₀ h6pos (by norm_num)]
      nlinarith
    have hchain : (6.07995 + (90 - z) : ℝ) ^ (-2.6364 : ℝ) ≤ 1 / 90 :=
      le_trans (le_trans hexp hanti) hub
    have hmem3 : Real.pi / 3 ∈ Set.Icc (-(Real.pi / 2)) (Real.pi / 2) := by
      constructor <;> nlinarith
    have hle : Real.pi / 3 ≤ z * (Real.pi / 180) := by
      nlinarith [mul_nonneg (by linarith : (0 : ℝ) ≤ z - 60) hπ0.le]
    have hsin : (0.866 : ℝ) ≤ Real.sin (z * (Real.pi / 180)) := by
      have hmono := Real.strictMonoOn_sin.monotoneOn hmem3 hmem hle
      linarith [sin_sixty_deg_lb]
    have hprod : 0.866 * (Real.pi / 180) ≤
        Real.sin (z * (Real.pi / 180)) * (Real.pi / 180) :=
      mul_le_mul_of_nonneg_right hsin (by positivity)
    nlinarith

/-- The `kastenyoung1989` denominator is strictly decreasing on `[1, 90]`. -/
theorem kyDenom_anti : StrictAntiOn kyDenom (Set.Icc (1 : ℝ) 90) := by
  apply strictAntiOn_of_deriv_neg (convex_Icc 1 90)
  · intro x hx
    exact (kyDenom_hasDerivAt (by linarith [hx.2] :
      x < 96.07995)).continuousAt.continuousWithinAt
  · intro x hx
    rw [interior_Icc] at hx
    rw [(kyDenom_hasDerivAt (by linarith [hx.2] : x < 96.07995)).deriv]
    exact kyDenomDeriv_neg hx.1.le hx.2

/-! ### Claims -/

/-- Claim C1: for every zenith value `z ≤ 90` (a finite real, not NaN)
and each of the eight recognized model names, `get_relative_airmass`
returns exactly the value of the spec's formula table for that model
evaluated at `z`; in particular for `kastenyoung1989` it returns
`1 / (cos(radians z) + 0.50572·(6.07995 + (90 − z))^(−1.6364))`. -/
theorem claim_C1 (z : ℝ) (hz : z ≤ 90) (m : AirmassModel) :
    get_relative_airmass (.scalar (.val z)) (modelName m) =
      .ok (.scalar (specFormula m (.val z))) := by
  rw [get_relative_airmass_name_scalar, amElem, maskZ_val_of_le hz]
  cases m <;> simp [amFormula, specFormula, Fl.npow_two_eq_mul]

/-- Witness for C1 at `z = 60`, model `kastenyoung1989`. -/
theorem claim_C1_witness :
    (60 : ℝ) ≤ 90 ∧
      get_relative_airmass (.scalar (.val 60)) (modelName .kastenyoung1989) =
        .ok (.scalar (specFormula .kastenyoung1989 (.val 60))) :=
  ⟨by norm_num, claim_C1 60 (by norm_num) .kastenyoung1989⟩

/-- Claim C2: every input element with zenith strictly greater than 90
degrees yields NaN under each of the eight models, and zenith exactly 90
is not masked. -/
theorem claim_C2 :
    (∀ z : ℝ, 90 < z → ∀ m : AirmassModel,
      get_relative_airmass (.scalar (.val z)) (modelName m) = .ok (.scalar .nan)) ∧
    maskZ (.val 90) = .val 90 := by
  refine ⟨fun z hz m => ?_, maskZ_val_of_le le_rfl⟩
  rw [get_relative_airmass_name_scalar, amElem, maskZ_val_of_gt hz, amFormula_nan]

/-- Witness for C2 at `z = 95`, model `simple`. -/
theorem claim_C2_witness :
    (90 : ℝ) < 95 ∧
      get_relative_airmass (.scalar (.val 95)) (modelName .simple) = .ok (.scalar .nan) :=
  ⟨by norm_num, claim_C2.1 95 (by norm_num) .simple⟩

/-- Claim C3: a model string whose lowercasing matches none of the eight
recognized names makes `get_relative_airmass` fail with an error whose
payload carries the offending (lowercased) model string, and every
recognized model string returns a value; this is the only failure mode. -/
theorem claim_C3 (model : String) (zenith : ZenithInput) :
    (strLower model ∉ validModels →
      get_relative_airmass zenith model =
        .error ("%s is not a valid model for relativeairmass", strLower model)) ∧
    (strLower model ∈ validModels →
      ∃ out, get_relative_airmass zenith model = .ok out) := by
  constructor
  · intro h
    unfold get_relative_airmass
    rw [(parseModel_eq_none_iff _).mpr h]
  · intro h
    have hne : parseModel (strLower model) ≠ none := fun hc =>
      absurd h ((parseModel_eq_none_iff _).mp hc)
    obtain ⟨md, hmd⟩ := Option.ne_none_iff_exists'.mp hne
    unfold get_relative_airmass
    rw [hmd]
    cases zenith <;> exact ⟨_, rfl⟩

/-- Witness for C3: `"not_a_model"` is rejected with an error naming it,
and `"kastenyoung1989"` is accepted. -/
theorem claim_C3_witness :
    (strLower "not_a_model" ∉ validModels ∧
      get_relative_airmass (.scalar (.val 0)) "not_a_model" =
        .error ("%s is not a valid model for relativeairmass", strLower "not_a_model")) ∧
    (strLower "kastenyoung1989" ∈ validModels ∧
      ∃ out, get_relative_airmass (.scalar (.val 0)) "kastenyoung1989" = .ok out) :=
  ⟨⟨by decide, (claim_C3 "not_a_model" (.scalar (.val 0))).1 (by decide)⟩,
   ⟨by decide, (claim_C3 "kastenyoung1989" (.scalar (.val 0))).2 (by decide)⟩⟩

/-- Claim C4: an element that is NaN after the `> 90` masking step is
mapped to NaN by every one of the eight models (no error, no zero);
hence a NaN zenith element always yields a NaN output element. -/
theorem claim_C4 (zenith : Fl) (h : maskZ zenith = .nan) (m : AirmassModel) :
    get_relative_airmass (.scalar zenith) (modelName m) = .ok (.scalar .nan) := by
  rw [get_relative_airmass_name_scalar, amElem, h, amFormula_nan]

/-- Witness for C4: a NaN zenith element yields NaN under `young1994`. -/
theorem claim_C4_witness :
    maskZ .nan = .nan ∧
      get_relative_airmass (.scalar .nan) (modelName .young1994) = .ok (.scalar .nan) :=
  ⟨rfl, claim_C4 .nan rfl .young1994⟩

/-- The cosine of −10° is at least 1/2 (quadratic lower bound on cos). -/
theorem cos_neg_ten_lb : (1 / 2 : ℝ) ≤ Real.cos ((-10 : ℝ) * (Real.pi / 180)) := by
  have h1 : 1 - ((-10 : ℝ) * (Real.pi / 180)) ^ 2 / 2 ≤
      Real.cos ((-10 : ℝ) * (Real.pi / 180)) := Real.one_sub_sq_div_two_le_cos
  have hπ : Real.pi < 3.15 := Real.pi_lt_d2
  have hπ0 : 0 < Real.pi := Real.pi_pos
  nlinarith

/-- Upper bound for the power in the `kastenyoung1989` denominator at
`z = 0`: `96.07995 ^ 1.6364 ≤ 96.07995 ^ 2 < 9232`. -/
theorem ky_pow_ub : (96.07995 : ℝ) ^ (1.6364 : ℝ) ≤ 9232 := by
  have h1 : (96.07995 : ℝ) ^ (1.6364 : ℝ) ≤ (96.07995 : ℝ) ^ ((2 : ℕ) : ℝ) :=
    Real.rpow_le_rpow_of_exponent_le (by norm_num) (by norm_num)
  rw [Real.rpow_natCast] at h1
  have h2 : (96.07995 : ℝ) ^ (2 : ℕ) ≤ 9232 := by norm_num
  linarith

/-- Lower bound: `96.07995 ^ 1.6364 ≥ 96.07995 ^ 1.5 = 96.07995·√96.07995
≥ 96.07995·9.8 > 941`. -/
theorem ky_pow_lb : (941 : ℝ) ≤ (96.07995 : ℝ) ^ (1.6364 : ℝ) := by
  have hs : (9.8 : ℝ) ≤ Real.sqrt 96.07995 :=
    (Real.le_sqrt (by norm_num) (by norm_num)).mpr (by norm_num)
  have h15 : (96.07995 : ℝ) ^ (1.5 : ℝ) = 96.07995 * Real.sqrt 96.07995 := by
    rw [show (1.5 : ℝ) = 1 + 1 / 2 by norm_num, Real.rpow_add (by norm_num),
      Real.rpow_one, ← Real.sqrt_eq_rpow]
  have h2 : (96.07995 : ℝ) ^ (1.5 : ℝ) ≤ (96.07995 : ℝ) ^ (1.6364 : ℝ) :=
    Real.rpow_le_rpow_of_exponent_le (by norm_num) (by norm_num)
  rw [h15] at h2
  linarith

/-- Bounds for the correction term `c = 0.50572·96.07995^(−1.6364)` of
the `kastenyoung1989` denominator at `z = 0`: `5e-5 ≤ c ≤ 5.4e-4`. -/
theorem ky_corr_bounds :
    (5e-5 : ℝ) ≤ 0.50572 * (96.07995 : ℝ) ^ (-1.6364 : ℝ) ∧
    0.50572 * (96.07995 : ℝ) ^ (-1.6364 : ℝ) ≤ 5.4e-4 := by
  have hp : (0 : ℝ) < (96.07995 : ℝ) ^ (1.6364 : ℝ) :=
    Real.rpow_pos_of_pos (by norm_num) _
  have hneg : (96.07995 : ℝ) ^ (-1.6364 : ℝ) = ((96.07995 : ℝ) ^ (1.6364 : ℝ))⁻¹ :=
    Real.rpow_neg (by norm_num) _
  have he : 0.50572 * ((96.07995 : ℝ) ^ (1.6364 : ℝ))⁻¹ =
      0.50572 / ((96.07995 : ℝ) ^ (1.6364 : ℝ)) := by ring
  constructor
  · rw [hneg, he, le_div_iff₀ hp]
    nlinarith [ky_pow_ub]
  · rw [hneg, he, div_le_iff₀ hp]
    nlinarith [ky_pow_lb]

/-- The `kastenyoung1989` denominator at `z = 0`. -/
theorem kyDenom_zero : kyDenom 0 = 1 + 0.50572 * (96.07995 : ℝ) ^ (-1.6364 : ℝ) := by
  unfold kyDenom
  norm_num [Real.cos_zero]

/-- Bernoulli-based lower bound on the decrease of `x ↦ x^(−p)`:
for `0 < a ≤ b` and `p ≥ 1`, `a^(−p) − b^(−p) ≥ p(b−a)/(a·b^p)`. -/
theorem rpow_inv_diff_lb {a b p : ℝ} (ha : 0 < a) (hab : a ≤ b) (hp : 1 ≤ p) :
    p * (b - a) / (a * b ^ p) ≤ a ^ (-p) - b ^ (-p) := by
  have hb : 0 < b := lt_of_lt_of_le ha hab
  have hap : 0 < a ^ p := Real.rpow_pos_of_pos ha p
  have hbp : 0 < b ^ p := Real.rpow_pos_of_pos hb p
  have hs0 : (0 : ℝ) ≤ (b - a) / a := div_nonneg (by linarith) ha.le
  have hber : 1 + p * ((b - a) / a) ≤ (1 + (b - a) / a) ^ p :=
    one_add_mul_self_le_rpow_one_add (by linarith) hp
  have hmul : a ^ p * (1 + p * ((b - a) / a)) ≤ a ^ p * (1 + (b - a) / a) ^ p :=
    mul_le_mul_of_nonneg_left hber hap.le
  have heq : a ^ p * (1 + (b - a) / a) ^ p = b ^ p := by
    rw [← Real.mul_rpow ha.le (by linarith : (0 : ℝ) ≤ 1 + (b - a) / a)]
    congr 1
    field_simp
  rw [heq] at hmul
  have key : a ^ p * a + p * (b - a) * a ^ p ≤ b ^ p * a := by
    have h2 := mul_le_mul_of_nonneg_right hmul ha.le
    have e2 : a ^ p * (1 + p * ((b - a) / a)) * a =
        a ^ p * a + p * (b - a) * a ^ p := by
      field_simp
      ring
    rw [e2] at h2
    exact h2
  rw [Real.rpow_neg ha.le, Real.rpow_neg hb.le, inv_eq_one_div, inv_eq_one_div,
    div_sub_div _ _ hap.ne' hbp.ne', div_le_div_iff₀ (by positivity) (by positivity)]
  nlinarith [mul_le_mul_of_nonneg_right key hbp.le]

/-- Upper bound `96.07995^1.6364 ≤ 96.07995^(7/4) ≤ 2960` (the fourth
power of the right side dominates `96.07995^7`). -/
theorem ky_pow7_ub : (96.07995 : ℝ) ^ (1.6364 : ℝ) ≤ 2960 := by
  have h74 : (96.07995 : ℝ) ^ (1.6364 : ℝ) ≤ (96.07995 : ℝ) ^ ((7 : ℝ) / 4) :=
    Real.rpow_le_rpow_of_exponent_le (by norm_num) (by norm_num)
  have he : ((96.07995 : ℝ) ^ ((7 : ℝ) / 4)) ^ (4 : ℕ) = (96.07995 : ℝ) ^ (7 : ℕ) := by
    calc ((96.07995 : ℝ) ^ ((7 : ℝ) / 4)) ^ (4 : ℕ)
        = ((96.07995 : ℝ) ^ ((7 : ℝ) / 4)) ^ ((4 : ℕ) : ℝ) :=
          (Real.rpow_natCast _ 4).symm
      _ = (96.07995 : ℝ) ^ ((7 : ℝ) / 4 * ((4 : ℕ) : ℝ)) :=
          (Real.rpow_mul (by norm_num) _ _).symm
      _ = (96.07995 : ℝ) ^ ((7 : ℕ) : ℝ) := by norm_num
      _ = (96.07995 : ℝ) ^ (7 : ℕ) := Real.rpow_natCast _ 7
  have h47 : (96.07995 : ℝ) ^ ((7 : ℝ) / 4) ≤ 2960 := by
    have h0 : (0 : ℝ) ≤ (96.07995 : ℝ) ^ ((7 : ℝ) / 4) :=
      (Real.rpow_pos_of_pos (by norm_num) _).le
    rw [← pow_le_pow_iff_left₀ h0 (by norm_num : (0 : ℝ) ≤ 2960)
      (by norm_num : (4 : ℕ) ≠ 0), he]
    norm_num
  linarith

/-- The `kastenyoung1989` denominator at `z = 1/100`. -/
theorem kyDenom_centi : kyDenom (1 / 100) =
    Real.cos ((1 / 100 : ℝ) * (Real.pi / 180)) +
      0.50572 * (96.06995 : ℝ) ^ (-1.6364 : ℝ) := by
  unfold kyDenom
  norm_num

/-- Strict increase of the `kastenyoung1989` denominator from zenith 0
to zenith 0.01: the power term's rise (linear in the step) beats the
cosine's (quadratic) fall. -/
theorem kyDenom_zero_lt_centi : kyDenom 0 < kyDenom (1 / 100) := by
  rw [kyDenom_zero, kyDenom_centi]
  have hx : 1 - ((1 / 100 : ℝ) * (Real.pi / 180)) ^ 2 / 2 ≤
      Real.cos ((1 / 100 : ℝ) * (Real.pi / 180)) := Real.one_sub_sq_div_two_le_cos
  have hπ6 : Real.pi < 3.141593 := Real.pi_lt_d6
  have hπ0 : 0 < Real.pi := Real.pi_pos
  have hx2 : ((1 / 100 : ℝ) * (Real.pi / 180)) ^ 2 / 2 ≤ 1.5232e-8 := by nlinarith
  have hdiff : (1.6364 : ℝ) * (96.07995 - 96.06995) /
      (96.06995 * (96.07995 : ℝ) ^ (1.6364 : ℝ)) ≤
      (96.06995 : ℝ) ^ (-1.6364 : ℝ) - (96.07995 : ℝ) ^ (-1.6364 : ℝ) :=
    rpow_inv_diff_lb (by norm_num) (by norm_num) (by norm_num)
  have hX : (0 : ℝ) < (96.07995 : ℝ) ^ (1.6364 : ℝ) :=
    Real.rpow_pos_of_pos (by norm_num) _
  have hXub := ky_pow7_ub
  have h5 : (5.7e-8 : ℝ) ≤ (1.6364 : ℝ) * (96.07995 - 96.06995) /
      (96.06995 * (96.07995 : ℝ) ^ (1.6364 : ℝ)) := by
    rw [le_div_iff₀ (by positivity)]
    nlinarith
  linarith

/-- Counterexample to claim C5: at zenith 0 the `kastenyoung1989`
airmass is `1/(1 + 0.50572·96.07995^(−1.6364)) ≈ 0.99971`, which
differs from 1.0 by about `2.9e-4`, strictly more than `1e-6`. -/
theorem claim_C5_counterexample :
    get_relative_airmass (.scalar (.val 0)) "kastenyoung1989" =
      .ok (.scalar (.val (kyAm 0))) ∧ 1e-6 < |kyAm 0 - 1| := by
  refine ⟨ky_eval le_rfl (by norm_num), ?_⟩
  obtain ⟨hlb, hub⟩ := ky_corr_bounds
  set c : ℝ := 0.50572 * (96.07995 : ℝ) ^ (-1.6364 : ℝ) with hc
  have hden : kyAm 0 = 1 / (1 + c) := by rw [kyAm, kyDenom_zero]
  have h1 : (0 : ℝ) < 1 + c := by linarith
  have habs : |kyAm 0 - 1| = 1 - 1 / (1 + c) := by
    rw [hden, abs_of_nonpos (sub_nonpos.mpr ((div_le_one h1).mpr (by linarith))),
      neg_sub]
  rw [habs]
  have hdiv : 1 / (1 + c) < 1 - 1e-6 := by
    rw [div_lt_iff₀ h1]
    nlinarith
  linarith

/-- Claim C5 (amended): at zenith 0 the returned `kastenyoung1989`
airmass differs from 1.0 by at most `1e-3` (not `1e-6`). -/
theorem claim_C5_amended :
    get_relative_airmass (.scalar (.val 0)) "kastenyoung1989" =
      .ok (.scalar (.val (kyAm 0))) ∧ |kyAm 0 - 1| ≤ 1e-3 := by
  refine ⟨ky_eval le_rfl (by norm_num), ?_⟩
  obtain ⟨hlb, hub⟩ := ky_corr_bounds
  set c : ℝ := 0.50572 * (96.07995 : ℝ) ^ (-1.6364 : ℝ) with hc
  have hden : kyAm 0 = 1 / (1 + c) := by rw [kyAm, kyDenom_zero]
  have h1 : (0 : ℝ) < 1 + c := by linarith
  have habs : |kyAm 0 - 1| = 1 - 1 / (1 + c) := by
    rw [hden, abs_of_nonpos (sub_nonpos.mpr ((div_le_one h1).mpr (by linarith))),
      neg_sub]
  rw [habs]
  have hdiv : 1 - 1e-3 ≤ 1 / (1 + c) := by
    rw [le_div_iff₀ h1]
    nlinarith
  linarith

/-- Claim C6: for model `simple` at zenith 90 the result is the
(positive) infinity `1/cos(90°)`, not a finite number. -/
theorem claim_C6 :
    get_relative_airmass (.scalar (.val 90)) "simple" = .ok (.scalar (.inf true)) := by
  have hc : Real.cos ((90 : ℝ) * (Real.pi / 180)) = 0 := by
    rw [show (90 : ℝ) * (Real.pi / 180) = Real.pi / 2 by ring, Real.cos_pi_div_two]
  rw [show "simple" = modelName .simple from rfl, get_relative_airmass_name_scalar,
    amElem, maskZ_val_of_le (by norm_num)]
  norm_num [amFormula, Fl.radians, Fl.cos, hc, Fl.div]

/-- Claim C8: the output mirrors the input's shape and labels: a Series
input yields a Series with identical labels in identical order, each
output element the per-element airmass of the corresponding input
element; a scalar input yields a scalar; an unlabeled sequence yields a
same-length sequence in the same element order. -/
theorem claim_C8 (model : String) (md : AirmassModel)
    (h : parseModel (strLower model) = some md) :
    (∀ z, get_relative_airmass (.scalar z) model = .ok (.scalar (amElem md z))) ∧
    (∀ zs : List Fl,
      get_relative_airmass (.array zs) model = .ok (.array (zs.map (amElem md))) ∧
      (zs.map (amElem md)).length = zs.length) ∧
    (∀ ps : List (String × Fl),
      get_relative_airmass (.series ps) model =
        .ok (.series (ps.map fun p => (p.1, amElem md p.2))) ∧
      (ps.map fun p => (p.1, amElem md p.2)).map Prod.fst = ps.map Prod.fst) := by
  refine ⟨fun z => ?_, fun zs => ⟨?_, List.length_map _ _⟩, fun ps => ⟨?_, ?_⟩⟩
  · unfold get_relative_airmass; rw [h]
  · unfold get_relative_airmass; rw [h]
  · unfold get_relative_airmass; rw [h]
  · simp [List.map_map, Function.comp]

/-- Witness for C8: a two-element labeled Series under `simple` keeps
its labels `t0, t1` in order, each value mapped element-wise. -/
theorem claim_C8_witness :
    parseModel (strLower "simple") = some .simple ∧
      get_relative_airmass (.series [("t0", .val 30), ("t1", .val 40)]) "simple" =
        .ok (.series [("t0", amElem .simple (.val 30)), ("t1", amElem .simple (.val 40))]) :=
  ⟨by decide, by
    have h := ((claim_C8 "simple" .simple (by decide)).2.2
      [("t0", .val 30), ("t1", .val 40)]).1
    simpa using h⟩

/-- Counterexample to claim C7: the `kastenyoung1989` airmass is NOT
monotonically non-decreasing over all of `[0, 90]`: with `z1 = 0` and
`z2 = 0.01` (so `0 ≤ z1 ≤ z2 ≤ 90`), the airmass at `z2` is strictly
below the airmass at `z1`, because near zenith 0 the correction term's
linear growth outweighs the cosine's quadratic decay. -/
theorem claim_C7_counterexample :
    get_relative_airmass (.scalar (.val 0)) "kastenyoung1989" =
      .ok (.scalar (.val (kyAm 0))) ∧
    get_relative_airmass (.scalar (.val (1 / 100))) "kastenyoung1989" =
      .ok (.scalar (.val (kyAm (1 / 100)))) ∧
    (0 : ℝ) ≤ 0 ∧ (0 : ℝ) ≤ 1 / 100 ∧ (1 / 100 : ℝ) ≤ 90 ∧
    kyAm (1 / 100) < kyAm 0 := by
  refine ⟨ky_eval le_rfl (by norm_num), ky_eval (by norm_num) (by norm_num),
    le_rfl, by norm_num, by norm_num, ?_⟩
  have h0 : 0 < kyDenom 0 := kyDenom_pos le_rfl (by norm_num)
  unfold kyAm
  exact one_div_lt_one_div_of_lt h0 kyDenom_zero_lt_centi

/-- Claim C7 (amended): the `kastenyoung1989` airmass is monotonically
non-decreasing in zenith on `[1, 90]` (for all `1 ≤ z1 ≤ z2 ≤ 90`);
it is not non-decreasing on all of `[0, 90]`, since it decreases
slightly just above zenith 0. -/
theorem claim_C7 (z1 z2 : ℝ) (h1 : 1 ≤ z1) (h12 : z1 ≤ z2) (h90 : z2 ≤ 90) :
    kyAm z1 ≤ kyAm z2 ∧
    get_relative_airmass (.scalar (.val z1)) "kastenyoung1989" =
      .ok (.scalar (.val (kyAm z1))) ∧
    get_relative_airmass (.scalar (.val z2)) "kastenyoung1989" =
      .ok (.scalar (.val (kyAm z2))) := by
  have h01 : (0 : ℝ) ≤ z1 := by linarith
  have h901 : z1 ≤ 90 := by linarith
  have h02 : (0 : ℝ) ≤ z2 := by linarith
  refine ⟨?_, ky_eval h01 h901, ky_eval h02 h90⟩
  rcases eq_or_lt_of_le h12 with rfl | hlt
  · exact le_rfl
  · have hd2 : 0 < kyDenom z2 := kyDenom_pos h02 h90
    have hanti := kyDenom_anti ⟨h1, h901⟩ ⟨by linarith, h90⟩ hlt
    unfold kyAm
    exact (one_div_lt_one_div_of_lt hd2 hanti).le

/-- Witness for the amended C7 at `z1 = 30`, `z2 = 60`. -/
theorem claim_C7_witness :
    (1 : ℝ) ≤ 30 ∧ (30 : ℝ) ≤ 60 ∧ (60 : ℝ) ≤ 90 ∧
      (kyAm 30 ≤ kyAm 60 ∧
       get_relative_airmass (.scalar (.val 30)) "kastenyoung1989" =
         .ok (.scalar (.val (kyAm 30))) ∧
       get_relative_airmass (.scalar (.val 60)) "kastenyoung1989" =
         .ok (.scalar (.val (kyAm 60)))) :=
  ⟨by norm_num, by norm_num, by norm_num,
    claim_C7 30 60 (by norm_num) (by norm_num) (by norm_num)⟩

/-- Claim C9: over the whole valid domain `0 ≤ z ≤ 90` the
`kastenyoung1989` power's base `6.07995 + (90 - z)` is at least
`6.07995`, the denominator
`cos(radians z) + 0.50572·(6.07995 + (90 − z))^(−1.6364)` is strictly
positive (so the division never divides by zero), and the returned
airmass is a finite, strictly positive real — including at `z = 90`. -/
theorem claim_C9 (z : ℝ) (h0 : 0 ≤ z) (h90 : z ≤ 90) :
    (6.07995 : ℝ) ≤ 6.07995 + (90 - z) ∧
    0 < kyDenom z ∧
    get_relative_airmass (.scalar (.val z)) "kastenyoung1989" =
      .ok (.scalar (.val (kyAm z))) ∧
    0 < kyAm z :=
  ⟨by linarith, kyDenom_pos h0 h90, ky_eval h0 h90,
    one_div_pos.mpr (kyDenom_pos h0 h90)⟩

/-- Witness for C9 at the boundary `z = 90`. -/
theorem claim_C9_witness :
    (0 : ℝ) ≤ 90 ∧
      ((6.07995 : ℝ) ≤ 6.07995 + (90 - 90) ∧
       0 < kyDenom 90 ∧
       get_relative_airmass (.scalar (.val 90)) "kastenyoung1989" =
         .ok (.scalar (.val (kyAm 90))) ∧
       0 < kyAm 90) :=
  ⟨by norm_num, claim_C9 90 (by norm_num) le_rfl⟩

/-- Claim C10: every strictly negative zenith is not masked by the
`> 90` rule, yet model `gueymard2003` maps it to NaN (its term
`z**0.095846` is a negative base under a non-integer exponent); the
other seven models return an ordinary finite numeric value at the same
kind of input (shown at zenith −10). -/
theorem claim_C10 :
    (∀ z : ℝ, z < 0 →
      maskZ (.val z) = .val z ∧
      get_relative_airmass (.scalar (.val z)) "gueymard2003" = .ok (.scalar .nan)) ∧
    (∀ m : AirmassModel, m ≠ .gueymard2003 →
      ∃ x : ℝ, get_relative_airmass (.scalar (.val (-10))) (modelName m) =
        .ok (.scalar (.val x))) := by
  constructor
  · intro z hz
    have h90 : z ≤ 90 := by linarith
    refine ⟨maskZ_val_of_le h90, ?_⟩
    rw [show "gueymard2003" = modelName .gueymard2003 from rfl,
      get_relative_airmass_name_scalar, amElem, maskZ_val_of_le h90,
      amFormula_gueymard2003_neg hz]
  · intro m hm
    have hm90 : (-10 : ℝ) ≤ 90 := by norm_num
    have hclb : (1 / 2 : ℝ) ≤ Real.cos ((-10 : ℝ) * (Real.pi / 180)) := cos_neg_ten_lb
    have hcpos : 0 < Real.cos ((-10 : ℝ) * (Real.pi / 180)) := by linarith
    cases m
    case gueymard2003 => exact absurd rfl hm
    case kastenyoung1989 =>
      have hcorr : (0 : ℝ) < 0.50572 * ((6.07995 + (90 - (-10 : ℝ))) ^ (-1.6364 : ℝ)) :=
        mul_pos (by norm_num) (Real.rpow_pos_of_pos (by norm_num) _)
      have hd : kyDenom (-10) ≠ 0 := ne_of_gt (by unfold kyDenom; linarith)
      exact ⟨_, by rw [get_relative_airmass_name_scalar, amElem,
        maskZ_val_of_le hm90, amFormula_ky_val hm90 hd]⟩
    case kasten1966 =>
      have hcorr : (0 : ℝ) < 0.15 * ((93.885 - (-10 : ℝ)) ^ (-1.253 : ℝ)) :=
        mul_pos (by norm_num) (Real.rpow_pos_of_pos (by norm_num) _)
      have hd : Real.cos ((-10 : ℝ) * (Real.pi / 180)) +
          0.15 * (93.885 - (-10 : ℝ)) ^ (-1.253 : ℝ) ≠ 0 := ne_of_gt (by linarith)
      exact ⟨_, by rw [get_relative_airmass_name_scalar, amElem,
        maskZ_val_of_le hm90, amFormula_kasten1966_val hm90 hd]⟩
    case simple =>
      exact ⟨_, by rw [get_relative_airmass_name_scalar, amElem,
        maskZ_val_of_le hm90, amFormula_simple_val hcpos.ne']⟩
    case youngirvine1967 =>
      exact ⟨_, by rw [get_relative_airmass_name_scalar, amElem,
        maskZ_val_of_le hm90, amFormula_youngirvine_val hcpos.ne']⟩
    case young1994 =>
      have h3 : 0 < Real.cos ((-10 : ℝ) * (Real.pi / 180)) ^ 3 := pow_pos hcpos 3
      have h2 : 0 < Real.cos ((-10 : ℝ) * (Real.pi / 180)) ^ 2 := pow_pos hcpos 2
      have hd : Real.cos ((-10 : ℝ) * (Real.pi / 180)) ^ 3 +
          0.149864 * Real.cos ((-10 : ℝ) * (Real.pi / 180)) ^ 2 +
          0.0102963 * Real.cos ((-10 : ℝ) * (Real.pi / 180)) + 0.000303978 ≠ 0 :=
        ne_of_gt (by linarith)
      exact ⟨_, by rw [get_relative_airmass_name_scalar, amElem,
        maskZ_val_of_le hm90, amFormula_young1994_val hd]⟩
    case gueymard1993 =>
      have hXlb : (104 : ℝ) ≤ (94.37515 - (-10 : ℝ)) ^ (1.21563 : ℝ) := by
        have h1 : (94.37515 - (-10 : ℝ)) ^ (1 : ℝ) ≤
            (94.37515 - (-10 : ℝ)) ^ (1.21563 : ℝ) :=
          Real.rpow_le_rpow_of_exponent_le (by norm_num) (by norm_num)
        rw [Real.rpow_one] at h1
        linarith
      have hX0 : (0 : ℝ) < (94.37515 - (-10 : ℝ)) ^ (1.21563 : ℝ) :=
        Real.rpow_pos_of_pos (by norm_num) _
      have hinv : (94.37515 - (-10 : ℝ)) ^ (-1.21563 : ℝ) ≤ 1 / 104 := by
        rw [Real.rpow_neg (by norm_num), inv_eq_one_div,
          div_le_div_iff₀ hX0 (by norm_num)]
        linarith
      have hpos : (0 : ℝ) ≤ (94.37515 - (-10 : ℝ)) ^ (-1.21563 : ℝ) :=
        (Real.rpow_pos_of_pos (by norm_num) _).le
      have hd : Real.cos ((-10 : ℝ) * (Real.pi / 180)) +
          0.00176759 * (-10) * (94.37515 - (-10 : ℝ)) ^ (-1.21563 : ℝ) ≠ 0 :=
        ne_of_gt (by nlinarith)
      exact ⟨_, by rw [get_relative_airmass_name_scalar, amElem,
        maskZ_val_of_le hm90, amFormula_gueymard1993_val hm90 hd]⟩
    case pickering2002 =>
      have hP : (100 : ℝ) ≤ (90 - (-10 : ℝ)) ^ (1.1 : ℝ) := by
        have h1 : (90 - (-10 : ℝ)) ^ (1 : ℝ) ≤ (90 - (-10 : ℝ)) ^ (1.1 : ℝ) :=
          Real.rpow_le_rpow_of_exponent_le (by norm_num) (by norm_num)
        rw [Real.rpow_one] at h1
        linarith
      have hD : (0 : ℝ) < 165 + 47 * (90 - (-10 : ℝ)) ^ (1.1 : ℝ) := by linarith
      have hfrac_ub : 244 / (165 + 47 * (90 - (-10 : ℝ)) ^ (1.1 : ℝ)) ≤ 1 := by
        rw [div_le_one hD]
        linarith
      have hfrac_pos : 0 < 244 / (165 + 47 * (90 - (-10 : ℝ)) ^ (1.1 : ℝ)) :=
        div_pos (by norm_num) hD
      have hs : 0 < Real.sin ((90 - (-10 : ℝ) +
          244 / (165 + 47 * (90 - (-10 : ℝ)) ^ (1.1 : ℝ))) * (Real.pi / 180)) := by
        apply Real.sin_pos_of_pos_of_lt_pi
        · have hA1 : (0 : ℝ) < 90 - (-10 : ℝ) +
              244 / (165 + 47 * (90 - (-10 : ℝ)) ^ (1.1 : ℝ)) := by linarith
          exact mul_pos hA1 (by positivity)
        · have hA2 : 90 - (-10 : ℝ) +
              244 / (165 + 47 * (90 - (-10 : ℝ)) ^ (1.1 : ℝ)) ≤ 101 := by linarith
          nlinarith [Real.pi_pos]
      exact ⟨_, by rw [get_relative_airmass_name_scalar, amElem,
        maskZ_val_of_le hm90, amFormula_pickering_val (by norm_num) hs.ne']⟩

/-- Witness for C10 at zenith −5: not masked, NaN under `gueymard2003`,
while (from the second conjunct) `simple` returns a finite value at −10. -/
theorem claim_C10_witness :
    ((-5 : ℝ) < 0 ∧
      maskZ (.val (-5)) = .val (-5) ∧
      get_relative_airmass (.scalar (.val (-5))) "gueymard2003" = .ok (.scalar .nan)) ∧
    (∃ x : ℝ, get_relative_airmass (.scalar (.val (-10))) (modelName .simple) =
      .ok (.scalar (.val x))) :=
  ⟨⟨by norm_num, (claim_C10.1 (-5) (by norm_num)).1, (claim_C10.1 (-5) (by norm_num)).2⟩,
   claim_C10.2 .simple (by decide)⟩

end


